import Mathlib

/-!
A shallow embedding of the wikipedia-fact-checker repository
(src/fact_checker.py and src/llm_analyzer.py), together with theorems
settling the frozen claims about its specification.

Python strings are modelled as Lean `String` over their character lists;
`lower`/`upper`/whitespace are modelled on the ASCII fragment, which is
what every claim, counterexample and witness here exercises.
-/

namespace FactChecker

/-- Python whitespace characters (`str.split()` / `\s` on the ASCII fragment). -/
def isPyWs (c : Char) : Bool :=
  c = ' ' || c = '\t' || c = '\n' || c = '\r' || c = '\x0b' || c = '\x0c'

/-- Python `str.lower()` (ASCII). -/
def pyLower (s : String) : String :=
  String.mk (s.toList.map Char.toLower)

/-- Python `str.upper()` (ASCII). -/
def pyUpper (s : String) : String :=
  String.mk (s.toList.map Char.toUpper)

/-- Python `str.strip()`: remove leading and trailing whitespace. -/
def pyStrip (s : String) : String :=
  String.mk (((s.toList.dropWhile isPyWs).reverse.dropWhile isPyWs).reverse)

/-- `needle` occurs as a contiguous sublist of `hay` (Python `needle in hay`). -/
def infixOf (needle : List Char) : List Char → Bool
  | [] => needle.isEmpty
  | hay@(_ :: rest) => (needle.isPrefixOf hay) || infixOf needle rest

/-- Python substring test `needle in hay`. -/
def strContains (hay needle : String) : Bool :=
  infixOf needle.toList hay.toList

/-- Accumulator step of Python `str.split()` (split on whitespace runs,
dropping empty tokens).  `acc` is the current token, reversed. -/
def wsFold : List Char → List Char → List (List Char)
  | [], acc => if acc = [] then [] else [acc.reverse]
  | c :: rest, acc =>
    if isPyWs c then
      (if acc = [] then wsFold rest [] else acc.reverse :: wsFold rest [])
    else
      wsFold rest (c :: acc)

/-- Python `str.split()` with no separator argument. -/
def pySplitWs (s : String) : List String :=
  (wsFold s.toList []).map String.mk

/-- Split at the first occurrence of `sep` (Python `s.split(sep, 1)` when the
separator occurs); `none` when `sep` does not occur.  `sep` is non-empty at
every use site. -/
def splitOnceAux (sep : List Char) : List Char → Option (List Char × List Char)
  | [] => none
  | l@(c :: rest) =>
    if sep.isPrefixOf l then some ([], l.drop sep.length)
    else (splitOnceAux sep rest).map (fun p => (c :: p.1, p.2))

/-- Python `s.split(sep, 1)` reduced to the part after the first `sep`
(`parts[-1]` with `len(parts) > 1`); `none` when `sep` is absent. -/
def pySplitOnce (sep s : String) : Option (String × String) :=
  (splitOnceAux sep.toList s.toList).map (fun p => (String.mk p.1, String.mk p.2))

/-- Python `s.replace("?", "")`. -/
def removeQ (s : String) : String :=
  String.mk (s.toList.filter (fun c => c ≠ '?'))

/-- Prepend a character to the first chunk of a chunk list. -/
def consHead (c : Char) : List (List Char) → List (List Char)
  | [] => [[c]]
  | s :: ss => (c :: s) :: ss

/-- One pass of Python `re.split(r"\.\s+", text)`:  a period followed by at
least one whitespace character ends the current chunk and the whitespace run
is consumed greedily (`skipping` is true while inside that run). -/
def reSplitAux : Bool → List Char → List (List Char)
  | _, [] => [[]]
  | skipping, c :: rest =>
    if skipping && isPyWs c then reSplitAux true rest
    else if c = '.' && (match rest with | [] => false | r :: _ => isPyWs r) then
      [] :: reSplitAux true rest
    else
      consHead c (reSplitAux false rest)

/-- Python `re.split(r"\.\s+", text)`. -/
def reSplitDotWs (s : String) : List String :=
  (reSplitAux false s.toList).map String.mk

/-- The fixed negation vocabulary of `analyze_evidence`
(src/fact_checker.py lines 170-173). -/
def negation_words : List String :=
  ["not", "no", "never", "didn\x27t", "doesn\x27t", "wasn\x27t", "weren\x27t",
   "false", "incorrect", "neither", "none"]

/-- `WikipediaFactChecker.extract_relevant_sentences`
(src/fact_checker.py lines 147-161).  `minLen` is the configured
`fact_check.min_keyword_length`, `maxSents` is `fact_check.max_evidence_sentences`. -/
def extract_relevant_sentences (minLen maxSents : Nat) (text claim : String) : List String :=
  if text = "" || claim = "" then []
  else
    let claim_keywords := (pySplitWs (pyLower claim)).dedup
    let sentences := reSplitDotWs text
    let relevant := sentences.filter (fun sentence =>
      0 < claim_keywords.countP (fun kw =>
        decide (minLen ≤ kw.length) && strContains (pyLower sentence) kw))
    relevant.take maxSents

/-- The per-sentence loop of `analyze_evidence` (src/fact_checker.py lines
177-192), returning the `(supporting_evidence, contradicting_evidence)` pair.
`claim_words` and `claim_lower` are precomputed by the caller as in the source. -/
def classifyLoop (claim_words : List String) (claim_lower : String) :
    List String → List String × List String
  | [] => ([], [])
  | sentence :: rest =>
    let r := classifyLoop claim_words claim_lower rest
    let sentence_lower := pyLower sentence
    let has_claim_keyword := claim_words.any (fun kw => strContains sentence_lower kw)
    let has_negation := negation_words.any (fun neg => strContains sentence_lower neg)
    if has_claim_keyword && !has_negation then (sentence :: r.1, r.2)
    else if has_claim_keyword && has_negation then (r.1, sentence :: r.2)
    else if strContains claim_lower "is in" || strContains claim_lower "located in" then
      match pySplitOnce "in " claim_lower with
      | some (_, post) =>
        let location := pyStrip (removeQ post)
        if location ≠ "" && strContains sentence_lower "china" && location ≠ "china" then
          (r.1, sentence :: r.2)
        else r
      | none => r
    else r

/-- `WikipediaFactChecker.analyze_evidence` (src/fact_checker.py lines 163-207). -/
def analyze_evidence (minLen : Nat) (evidence : List String) (claim : String) :
    String × List String :=
  let claim_lower := pyLower claim
  let claim_words := (pySplitWs claim_lower).filter (fun w => minLen < w.length)
  let (supporting, contradicting) := classifyLoop claim_words claim_lower evidence
  if supporting ≠ [] ∧ contradicting ≠ [] then ("MIXED", supporting ++ contradicting)
  else if supporting ≠ [] ∧ contradicting = [] then ("TRUE", supporting)
  else if contradicting ≠ [] then ("FALSE", contradicting)
  else ("INSUFFICIENT_EVIDENCE", [])

/-- Spec-side restatement: a sentence is *supporting* when it contains some
claim keyword of length strictly greater than `minLen` and no negation word
as a substring (both case-insensitively). -/
def supCond (minLen : Nat) (claim : String) (sentence : String) : Bool :=
  let words := (pySplitWs (pyLower claim)).filter (fun w => minLen < w.length)
  words.any (fun kw => strContains (pyLower sentence) kw) &&
    !(negation_words.any (fun neg => strContains (pyLower sentence) neg))

/-- Spec-side restatement of the location special case (src/fact_checker.py
lines 186-192): the claim mentions "is in" or "located in", the substring of
the claim after the first "in " (with question marks removed and surrounding
whitespace stripped) is non-empty and differs from "china", and the sentence
mentions "china". -/
def chinaCond (claim : String) (sentence : String) : Bool :=
  (strContains (pyLower claim) "is in" || strContains (pyLower claim) "located in") &&
    match pySplitOnce "in " (pyLower claim) with
    | some (_, post) =>
      let location := pyStrip (removeQ post)
      location ≠ "" && strContains (pyLower sentence) "china" && location ≠ "china"
    | none => false

/-- Spec-side restatement: a sentence is *contradicting* when it contains both
a claim keyword and a negation substring, or — having no claim keyword — it
triggers the location special case. -/
def conCond (minLen : Nat) (claim : String) (sentence : String) : Bool :=
  let words := (pySplitWs (pyLower claim)).filter (fun w => minLen < w.length)
  let hasKw := words.any (fun kw => strContains (pyLower sentence) kw)
  (hasKw && (negation_words.any (fun neg => strContains (pyLower sentence) neg))) ||
    (!hasKw && chinaCond claim sentence)

/-- JSON values as produced by Python `json.loads`, restricted to the
fragment the analyzer exchanges (integers in place of arbitrary numbers). -/
inductive Json where
  | null : Json
  | bool (b : Bool) : Json
  | num (n : Int) : Json
  | str (s : String) : Json
  | arr (xs : List Json) : Json
  | obj (kvs : List (String × Json)) : Json
deriving Repr

/-- Whitespace skipped by the JSON grammar. -/
def isJsonWs (c : Char) : Bool :=
  c = ' ' || c = '\t' || c = '\n' || c = '\r'

/-- Parse the body of a JSON string literal (after the opening quote),
supporting the escapes `\" \\ \/ \n \t \r \b \f`.  Returns the characters of
the string and the input after the closing quote. -/
def parseStringLit : List Char → Option (List Char × List Char)
  | [] => none
  | '"' :: rest => some ([], rest)
  | '\\' :: e :: rest =>
    (match e with
     | '"' => some '"'
     | '\\' => some '\\'
     | '/' => some '/'
     | 'n' => some '\n'
     | 't' => some '\t'
     | 'r' => some '\r'
     | 'b' => some '\x08'
     | 'f' => some '\x0c'
     | _ => none).bind fun c =>
      (parseStringLit rest).map (fun p : List Char × List Char => (c :: p.1, p.2))
  | c :: rest =>
    (parseStringLit rest).map (fun p : List Char × List Char => (c :: p.1, p.2))

/-- Parse a run of decimal digits into a natural number. -/
def parseDigits : List Char → Option (Nat × List Char)
  | cs =>
    let ds := cs.takeWhile (fun c => c.isDigit)
    if ds = [] then none
    else some (ds.foldl (fun acc c => 10 * acc + (c.toNat - 48)) 0, cs.dropWhile (fun c => c.isDigit))

/-- Parsing job of the recursive-descent JSON parser: a whole value, the
members of an object after `{` (with accumulated pairs), or the items of an
array after `[` (with accumulated values). -/
inductive PJob where
  | val : PJob
  | members (acc : List (String × Json)) : PJob
  | items (acc : List Json) : PJob

/-- Recursive-descent JSON parser, fuel-bounded for totality (structural on
the fuel, so concrete runs reduce definitionally).  Numbers with a fraction
or exponent are rejected: the embedding covers the integer fragment of
`json.loads`. -/
def parseGo : Nat → PJob → List Char → Option (Json × List Char)
  | 0, _, _ => none
  | fuel + 1, PJob.val, cs =>
    match cs.dropWhile isJsonWs with
    | '{' :: rest => parseGo fuel (PJob.members []) (rest.dropWhile isJsonWs)
    | '[' :: rest => parseGo fuel (PJob.items []) (rest.dropWhile isJsonWs)
    | '"' :: rest =>
      (parseStringLit rest).map (fun p : List Char × List Char => (Json.str (String.mk p.1), p.2))
    | 't' :: 'r' :: 'u' :: 'e' :: rest => some (Json.bool true, rest)
    | 'f' :: 'a' :: 'l' :: 's' :: 'e' :: rest => some (Json.bool false, rest)
    | 'n' :: 'u' :: 'l' :: 'l' :: rest => some (Json.null, rest)
    | '-' :: rest =>
      (parseDigits rest).bind fun p =>
        match p.2 with
        | '.' :: _ => none
        | 'e' :: _ => none
        | 'E' :: _ => none
        | _ => some (Json.num (-(p.1 : Int)), p.2)
    | rest =>
      (parseDigits rest).bind fun p =>
        match p.2 with
        | '.' :: _ => none
        | 'e' :: _ => none
        | 'E' :: _ => none
        | _ => some (Json.num (p.1 : Int), p.2)
  | fuel + 1, PJob.members acc, cs =>
    match cs with
    | '}' :: rest => if acc.isEmpty then some (Json.obj [], rest) else none
    | '"' :: rest =>
      (parseStringLit rest).bind fun pk =>
        match pk.2.dropWhile isJsonWs with
        | ':' :: afterColon =>
          (parseGo fuel PJob.val afterColon).bind fun pv =>
            match pv.2.dropWhile isJsonWs with
            | ',' :: afterComma =>
              parseGo fuel (PJob.members ((String.mk pk.1, pv.1) :: acc))
                (afterComma.dropWhile isJsonWs)
            | '}' :: rest2 => some (Json.obj (((String.mk pk.1, pv.1) :: acc).reverse), rest2)
            | _ => none
        | _ => none
    | _ => none
  | fuel + 1, PJob.items acc, cs =>
    match cs with
    | ']' :: rest => if acc.isEmpty then some (Json.arr [], rest) else none
    | _ =>
      (parseGo fuel PJob.val cs).bind fun pv =>
        match pv.2.dropWhile isJsonWs with
        | ',' :: afterComma => parseGo fuel (PJob.items (pv.1 :: acc)) (afterComma.dropWhile isJsonWs)
        | ']' :: rest2 => some (Json.arr ((pv.1 :: acc).reverse), rest2)
        | _ => none

/-- Python `json.loads`: the whole input must be one JSON value (up to
surrounding whitespace). -/
def jsonLoads (cs : List Char) : Option Json :=
  match parseGo (2 * cs.length + 8) PJob.val cs with
  | some (v, rest) => if rest.dropWhile isJsonWs = [] then some v else none
  | none => none

/-- Python `dict.get(key, default)` on a parsed JSON object: last occurrence
wins, as in `json.loads` (later duplicate keys override earlier ones). -/
def jGet (kvs : List (String × Json)) (key : String) (dflt : Json) : Json :=
  match kvs.reverse.find? (fun p => p.1 == key) with
  | some p => p.2
  | none => dflt

mutual

/-- Python `repr(x)` of a JSON value (on the ASCII fragment, without escape
refinements, which no claim exercises). -/
def reprJson : Json → String
  | Json.null => "None"
  | Json.bool true => "True"
  | Json.bool false => "False"
  | Json.num n => toString n
  | Json.str s => "\x27" ++ s ++ "\x27"
  | Json.arr xs => "[" ++ String.intercalate ", " (reprJsonList xs) ++ "]"
  | Json.obj kvs => "\x7b" ++ String.intercalate ", " (reprJsonKvs kvs) ++ "\x7d"

/-- `repr` of the elements of a JSON array. -/
def reprJsonList : List Json → List String
  | [] => []
  | j :: rest => reprJson j :: reprJsonList rest

/-- `repr` of the members of a JSON object. -/
def reprJsonKvs : List (String × Json) → List String
  | [] => []
  | p :: rest => ("\x27" ++ p.1 ++ "\x27: " ++ reprJson p.2) :: reprJsonKvs rest

end

/-- Python `str(x)` of a JSON value: the string itself for strings, `repr`
otherwise (which coincides with `str` on the remaining JSON shapes). -/
def pyStr : Json → String
  | Json.str s => s
  | j => reprJson j

/-- Python truthiness of a JSON value. -/
def pyTruthy : Json → Bool
  | Json.null => false
  | Json.bool b => b
  | Json.num n => n ≠ 0
  | Json.str s => s ≠ ""
  | Json.arr xs => !xs.isEmpty
  | Json.obj kvs => !kvs.isEmpty

/-- Python `int(s)` on a string: optional surrounding whitespace, optional
sign, then at least one digit; anything else raises `ValueError`. -/
def pyIntOfString (s : String) : Option Int :=
  let cs := (s.toList.dropWhile isPyWs).reverse.dropWhile isPyWs |>.reverse
  let (neg, digits) :=
    match cs with
    | '-' :: rest => (true, rest)
    | '+' :: rest => (false, rest)
    | rest => (false, rest)
  if digits ≠ [] ∧ digits.all Char.isDigit then
    let n : Nat := digits.foldl (fun acc c => 10 * acc + (c.toNat - 48)) 0
    some (if neg then -(n : Int) else (n : Int))
  else none

/-- The Python exceptions `int(x)` can raise in `_parse_llm_response`:
`TypeError` (caught by the handler there) and `ValueError` (not caught). -/
inductive PyIntErr where
  | typeError : PyIntErr
  | valueError : PyIntErr
deriving DecidableEq, Repr

/-- Python `int(x)` on a JSON value. -/
def pyInt : Json → Except PyIntErr Int
  | Json.num n => Except.ok n
  | Json.bool b => Except.ok (if b then 1 else 0)
  | Json.str s =>
    match pyIntOfString s with
    | some n => Except.ok n
    | none => Except.error PyIntErr.valueError
  | Json.null => Except.error PyIntErr.typeError
  | Json.arr _ => Except.error PyIntErr.typeError
  | Json.obj _ => Except.error PyIntErr.typeError

/-- The closed verdict set (src/llm_analyzer.py line 24). -/
def VERDICTS : List String := ["TRUE", "FALSE", "MIXED", "INSUFFICIENT_EVIDENCE"]

/-- The span from the first `{` to the last `}` of a character list
(`text[start:end]` with `start = text.find("{")`, `end = text.rfind("}") + 1`,
guarded by `start >= 0 and end > start`); `none` when the guard fails. -/
def braceSpan (cs : List Char) : Option (List Char) :=
  match cs.findIdx? (fun c => c = '{'), cs.reverse.findIdx? (fun c => c = '}') with
  | some s, some rj =>
    let e := cs.length - rj
    if s < e then some ((cs.drop s).take (e - s)) else none
  | _, _ => none

/-- `_parse_llm_response` (src/llm_analyzer.py lines 49-76).  The `Except`
error is an uncaught Python exception: the handler there catches only
`json.JSONDecodeError` and `TypeError`, so a `ValueError` from
`int(obj.get("confidence", 0))` escapes.  On a caught `TypeError` the
function returns the fields assigned so far (verdict and explanation from
the object, confidence 0, citations empty), mirroring the source's
sequential assignments. -/
def parse_llm_response (text : String) : Except PyIntErr (String × String × Int × List String) :=
  match braceSpan (pyStrip text).toList with
  | none => Except.ok ("INSUFFICIENT_EVIDENCE", "", 0, [])
  | some span =>
    match jsonLoads span with
    | none => Except.ok ("INSUFFICIENT_EVIDENCE", "", 0, [])
    | some (Json.obj kvs) =>
      let v0 := pyUpper (pyStr (jGet kvs "verdict" (Json.str "INSUFFICIENT_EVIDENCE")))
      let verdict := if v0 ∈ VERDICTS then v0 else "INSUFFICIENT_EVIDENCE"
      let explanation := pyStr (jGet kvs "explanation" (Json.str ""))
      match pyInt (jGet kvs "confidence" (Json.num 0)) with
      | Except.error PyIntErr.typeError => Except.ok (verdict, explanation, 0, [])
      | Except.error PyIntErr.valueError => Except.error PyIntErr.valueError
      | Except.ok c0 =>
        let confidence : Int := if c0 < 0 then 0 else if c0 > 100 then 100 else c0
        let citations :=
          match jGet kvs "citations" (Json.arr []) with
          | Json.arr xs => ((xs.filter pyTruthy).map (fun c => pyStrip (pyStr c))).take 5
          | _ => []
        Except.ok (verdict, explanation, confidence, citations)
    | some _ =>
      -- `obj.get` on a non-dict would raise `AttributeError`; unreachable since
      -- the parsed span starts with a brace, but kept for totality.
      Except.error PyIntErr.typeError

/-- `LLMAnalyzer.analyze` (src/llm_analyzer.py lines 150-185).  The backend
call (`_call_openai` / `_call_ollama`) is abstracted as a function returning
either the raw response text or the message of the exception it raised;
`confidenceEnabled` is the `llm.confidence_enabled` configuration flag. -/
def llm_analyze (backend : List String → String → Except String String)
    (confidenceEnabled : Bool) (evidence : List String) (claim : String) :
    Except PyIntErr (String × String × Int × List String × List String) :=
  if evidence.isEmpty then
    Except.ok ("INSUFFICIENT_EVIDENCE", "No evidence was provided to evaluate the claim.",
      0, [], [])
  else
    match backend evidence claim with
    | Except.error e =>
      Except.ok ("INSUFFICIENT_EVIDENCE", "Analysis unavailable: " ++ e, 0, [], evidence)
    | Except.ok raw =>
      match parse_llm_response raw with
      | Except.error err => Except.error err
      | Except.ok (verdict, explanation, confidence, citations) =>
        Except.ok (verdict, explanation, (if confidenceEnabled then confidence else 0),
          citations, evidence)

/-- One Wikipedia search candidate as consumed by the orchestrator loop
(`result.get("pageid")`, `result.get("title", "")`). -/
structure SearchItem where
  pageid : Option Int
  title : String
deriving DecidableEq, Repr

/-- `WikipediaAPIError` as raised by `search_wikipedia`
(src/fact_checker.py lines 84-101): rate limit (HTTP 429) or timeout. -/
inductive WikipediaAPIError where
  | rateLimit : WikipediaAPIError
  | timeout : WikipediaAPIError
deriving DecidableEq, Repr

/-- Outcome of the HTTP transport underneath `search_wikipedia`: a timeout,
a response with a status code (whose parsed search list is `results` when the
request succeeds), or any other `requests.RequestException`. -/
inductive TransportOutcome where
  | timeout : TransportOutcome
  | httpStatus (code : Nat) (results : List SearchItem) : TransportOutcome
  | requestError : TransportOutcome
deriving DecidableEq, Repr

/-- `WikipediaFactChecker.search_wikipedia` (src/fact_checker.py lines
64-107): HTTP 429 raises the rate-limit error, a timeout raises the timeout
error, `raise_for_status` raises `HTTPError` exactly for statuses in
[400, 600) — absorbed by the `RequestException` handler as an empty result
list, like every other request error; any other status returns the parsed
result list. -/
def search_wikipedia : TransportOutcome → Except WikipediaAPIError (List SearchItem)
  | TransportOutcome.timeout => Except.error WikipediaAPIError.timeout
  | TransportOutcome.requestError => Except.ok []
  | TransportOutcome.httpStatus code results =>
    if code = 429 then Except.error WikipediaAPIError.rateLimit
    else if 400 ≤ code ∧ code < 600 then Except.ok []
    else Except.ok results

/-- A source entry appended by the orchestrator loop
(src/fact_checker.py lines 240-244 and 294-298). -/
structure Source where
  title : String
  pageid : Int
  url : String
deriving DecidableEq, Repr

/-- `f"https://en.wikipedia.org/?curid={pageid}"`. -/
def sourceUrl (pageid : Int) : String :=
  "https://en.wikipedia.org/?curid=" ++ toString pageid

/-- The per-candidate loop shared by `run_fact_check` and
`run_fact_check_with_analyzer` (src/fact_checker.py lines 230-244, 279-298):
skip candidates without a pageid, fetch the content (`fetch` abstracts
`get_page_content`, returning the empty string on failure), and on non-empty
content accumulate the extracted sentences and one `Source` entry. -/
def fetchLoop (fetch : Int → String) (minLen maxSents : Nat) (claim : String) :
    List SearchItem → List String × List Source
  | [] => ([], [])
  | item :: rest =>
    match item.pageid with
    | none => fetchLoop fetch minLen maxSents claim rest
    | some pid =>
      let content := fetch pid
      let r := fetchLoop fetch minLen maxSents claim rest
      if content = "" then r
      else (extract_relevant_sentences minLen maxSents content claim ++ r.1,
            ⟨item.title, pid, sourceUrl pid⟩ :: r.2)

/-- `WikipediaFactChecker.run_fact_check` (src/fact_checker.py lines
209-247).  `n` is `max_articles_to_fetch` (defaulted to `max_articles`). -/
def run_fact_check (transport : TransportOutcome) (fetch : Int → String)
    (minLen maxSents n : Nat) (claim : String) :
    Except WikipediaAPIError (String × List String × List Source) :=
  match search_wikipedia transport with
  | Except.error e => Except.error e
  | Except.ok results =>
    if results.isEmpty then Except.ok ("INSUFFICIENT_EVIDENCE", [], [])
    else
      Except.ok
        ((analyze_evidence minLen
            (fetchLoop fetch minLen maxSents claim (results.take n)).1 claim).1,
         (analyze_evidence minLen
            (fetchLoop fetch minLen maxSents claim (results.take n)).1 claim).2,
         (fetchLoop fetch minLen maxSents claim (results.take n)).2)

/-- The result dictionary of `run_fact_check_with_analyzer`. -/
structure FCResult where
  verdict : String
  evidence : List String
  sources : List Source
  explanation : Option String
  confidence : Option Int
deriving DecidableEq, Repr

/-- `WikipediaFactChecker.run_fact_check_with_analyzer` (src/fact_checker.py
lines 249-331).  `analyzer` abstracts constructing `LLMAnalyzer` and calling
its `analyze` on the accumulated evidence; an `Except.error` is any exception
from that block, absorbed by falling back to `analyze_evidence`. -/
def run_fact_check_with_analyzer (transport : TransportOutcome) (fetch : Int → String)
    (minLen maxSents n : Nat) (analyzer_mode : String)
    (analyzer : List String → String → Except String (String × String × Int × List String × List String))
    (claim : String) : Except WikipediaAPIError FCResult :=
  let mode := pyLower analyzer_mode
  match search_wikipedia transport with
  | Except.error e => Except.error e
  | Except.ok results =>
    if results.isEmpty then
      Except.ok ⟨"INSUFFICIENT_EVIDENCE", [], [], none, none⟩
    else
      if mode = "llm" then
        match analyzer (fetchLoop fetch minLen maxSents claim (results.take n)).1 claim with
        | Except.ok (verdict, explanation, confidence, _citations, relevant_evidence) =>
          Except.ok ⟨verdict, relevant_evidence,
            (fetchLoop fetch minLen maxSents claim (results.take n)).2,
            (if explanation = "" then none else some explanation), some confidence⟩
        | Except.error _ =>
          Except.ok ⟨(analyze_evidence minLen
              (fetchLoop fetch minLen maxSents claim (results.take n)).1 claim).1,
            (analyze_evidence minLen
              (fetchLoop fetch minLen maxSents claim (results.take n)).1 claim).2,
            (fetchLoop fetch minLen maxSents claim (results.take n)).2, none, none⟩
      else
        Except.ok ⟨(analyze_evidence minLen
            (fetchLoop fetch minLen maxSents claim (results.take n)).1 claim).1,
          (analyze_evidence minLen
            (fetchLoop fetch minLen maxSents claim (results.take n)).1 claim).2,
          (fetchLoop fetch minLen maxSents claim (results.take n)).2, none, none⟩

/-! ### Helper lemmas -/

theorem classifyLoop_eq_filters (minLen : Nat) (claim : String) (evidence : List String) :
    classifyLoop ((pySplitWs (pyLower claim)).filter (fun w => minLen < w.length))
      (pyLower claim) evidence
    = (evidence.filter (supCond minLen claim), evidence.filter (conCond minLen claim)) := by
  induction evidence with
  | nil => rfl
  | cons s rest ih =>
    simp only [classifyLoop, ih]
    by_cases hkw : ((pySplitWs (pyLower claim)).filter (fun w => minLen < w.length)).any
        (fun kw => strContains (pyLower s) kw) = true
    · by_cases hneg : negation_words.any (fun neg => strContains (pyLower s) neg) = true
      · simp [supCond, conCond, hkw, hneg, List.filter_cons]
      · simp [supCond, conCond, hkw, hneg, List.filter_cons]
    · have hkw' : ((pySplitWs (pyLower claim)).filter (fun w => minLen < w.length)).any
          (fun kw => strContains (pyLower s) kw) = false := by
        simpa using hkw
      by_cases hguard : (strContains (pyLower claim) "is in"
          || strContains (pyLower claim) "located in") = true
      · cases hsplit : pySplitOnce "in " (pyLower claim) with
        | none =>
          simp [supCond, conCond, chinaCond, hkw', hguard, hsplit, List.filter_cons]
        | some p =>
          simp only [supCond, conCond, chinaCond, hkw', hguard, hsplit, List.filter_cons]
          simp
          split <;> rfl
      · have hguard' : (strContains (pyLower claim) "is in"
            || strContains (pyLower claim) "located in") = false := by
          simpa using hguard
        simp [supCond, conCond, chinaCond, hkw', hguard', List.filter_cons]

/-! ### Claim C1 -/

/-- C1 (counterexample): `analyze_evidence` does *not* restrict the
contradicting list to sentences with a claim keyword and a negation
substring.  Here the sentence "China is big" contains no keyword of the
claim "is in france?" (the only keyword of length > 3 is "france?"), so the
claimed partition yields empty supporting and contradicting lists and
verdict INSUFFICIENT_EVIDENCE with no evidence — yet the code appends the
sentence to the contradicting list through the location special case and
returns FALSE. -/
theorem analyze_evidence_china_branch_cex :
    analyze_evidence 3 ["China is big"] "is in france?" = ("FALSE", ["China is big"]) ∧
    analyze_evidence 3 ["China is big"] "is in france?" ≠ ("INSUFFICIENT_EVIDENCE", []) :=
  ⟨by decide, by decide⟩

/-- C1 (amended): for every evidence list and claim, `analyze_evidence`
partitions the sentences in input order into a supporting list (at least one
claim keyword of length strictly greater than `minLen`, case-insensitively,
and no negation substring) and a contradicting list (at least one such
keyword and at least one negation substring, or — for sentences with no
claim keyword — the location special case of `chinaCond`), and returns MIXED
with supporting ++ contradicting when both are non-empty, TRUE with the
supporting list when only it is non-empty, FALSE with the contradicting list
when only it is non-empty, and INSUFFICIENT_EVIDENCE with no evidence when
both are empty. -/
theorem analyze_evidence_partitions (minLen : Nat) (evidence : List String) (claim : String) :
    analyze_evidence minLen evidence claim =
      (let supporting := evidence.filter (supCond minLen claim)
       let contradicting := evidence.filter (conCond minLen claim)
       if supporting ≠ [] ∧ contradicting ≠ [] then ("MIXED", supporting ++ contradicting)
       else if supporting ≠ [] then ("TRUE", supporting)
       else if contradicting ≠ [] then ("FALSE", contradicting)
       else ("INSUFFICIENT_EVIDENCE", [])) := by
  simp only [analyze_evidence, classifyLoop_eq_filters]
  by_cases hs : evidence.filter (supCond minLen claim) = [] <;>
    by_cases hc : evidence.filter (conCond minLen claim) = [] <;>
      simp [hs, hc]

/-! ### Claim C6 -/

/-- C6: in `analyze_evidence`, a sentence with no claim keyword is appended
to the contradicting list exactly when the claim contains "is in" or
"located in", the substring of the claim after the first "in " — question
marks removed and whitespace stripped — is non-empty, differs from "china",
and the sentence contains "china" case-insensitively (the condition
`chinaCond`); otherwise it is discarded. -/
theorem analyze_evidence_location_special_case (minLen : Nat) (claim sentence : String)
    (hkw : ((pySplitWs (pyLower claim)).filter (fun w => minLen < w.length)).any
      (fun kw => strContains (pyLower sentence) kw) = false) :
    analyze_evidence minLen [sentence] claim =
      (if chinaCond claim sentence then ("FALSE", [sentence])
       else ("INSUFFICIENT_EVIDENCE", [])) := by
  have hsup : supCond minLen claim sentence = false := by
    simp only [supCond]
    simp [hkw]
  have hcon : conCond minLen claim sentence = chinaCond claim sentence := by
    simp only [conCond]
    simp [hkw]
  simp only [analyze_evidence, classifyLoop_eq_filters, List.filter_cons, hsup, hcon,
    List.filter_nil]
  by_cases hch : chinaCond claim sentence = true <;> simp [hch]

/-- Witness for C6 at a concrete input: the sentence contains no keyword of
the claim, the special case fires, and the verdict is FALSE. -/
theorem analyze_evidence_location_special_case_witness :
    (((pySplitWs (pyLower "is in france?")).filter (fun w => 3 < w.length)).any
      (fun kw => strContains (pyLower "Beijing is the capital of China") kw) = false) ∧
    analyze_evidence 3 ["Beijing is the capital of China"] "is in france?" =
      ("FALSE", ["Beijing is the capital of China"]) := by
  refine ⟨by decide, ?_⟩
  have h := analyze_evidence_location_special_case 3 "is in france?"
    "Beijing is the capital of China" (by decide)
  rw [h]
  decide

/-! ### Claims C2 and C9 -/

theorem wsFold_nil_not_mem : ∀ (cs acc : List Char), [] ∉ wsFold cs acc := by
  intro cs
  induction cs with
  | nil =>
    intro acc h
    simp only [wsFold] at h
    split at h
    · simp at h
    · rename_i hacc
      simp at h
      exact hacc (by simpa using congrArg List.reverse h.symm)
  | cons c rest ih =>
    intro acc h
    simp only [wsFold] at h
    split at h
    · split at h
      · exact ih [] h
      · rename_i hacc
        rcases List.mem_cons.mp h with h1 | h1
        · exact hacc (by simpa using congrArg List.reverse h1.symm)
        · exact ih [] h1
    · exact ih (c :: acc) h

theorem toList_eq_nil_iff (s : String) : s.toList = [] ↔ s = "" := by
  constructor
  · intro h
    cases s
    exact congrArg String.mk h
  · intro h
    subst h
    rfl

theorem pySplitWs_mem_ne_empty (s : String) (kw : String) (h : kw ∈ pySplitWs s) :
    kw ≠ "" := by
  rcases List.mem_map.mp h with ⟨t, ht, rfl⟩
  intro hc
  have ht0 : t = [] := (toList_eq_nil_iff (String.mk t)).mpr hc
  exact wsFold_nil_not_mem s.toList [] (ht0 ▸ ht)

theorem strContains_empty_of_ne (kw : String) (h : kw ≠ "") :
    strContains "" kw = false := by
  have hne : ¬ kw.data = [] := fun hc => h ((toList_eq_nil_iff kw).mp hc)
  show infixOf kw.toList [] = false
  simp [infixOf, List.isEmpty_iff, hne]

/-- Every sentence kept by `extract_relevant_sentences` contains some
claim keyword of length at least `minLen` as a case-insensitive substring. -/
theorem extract_mem_keyword (minLen maxSents : Nat) (text claim s : String)
    (hs : s ∈ extract_relevant_sentences minLen maxSents text claim) :
    ∃ kw ∈ pySplitWs (pyLower claim),
      minLen ≤ kw.length ∧ strContains (pyLower s) kw = true := by
  unfold extract_relevant_sentences at hs
  split at hs
  · simp at hs
  · have hs' := List.mem_of_mem_take hs
    have := List.mem_filter.mp hs'
    have hp : 0 < ((pySplitWs (pyLower claim)).dedup).countP
        (fun kw => decide (minLen ≤ kw.length) && strContains (pyLower s) kw) := by
      simpa using this.2
    rcases List.countP_pos_iff.mp hp with ⟨kw, hkwmem, hkwp⟩
    have hkwp' : minLen ≤ kw.length ∧ strContains (pyLower s) kw = true := by
      simpa using hkwp
    exact ⟨kw, List.mem_dedup.mp hkwmem, hkwp'.1, hkwp'.2⟩

/-- C2: `extract_relevant_sentences` returns at most `maxSents` sentences,
each containing some whitespace-split lower-cased claim keyword of length at
least `minLen` as a case-insensitive substring, in document order (a sublist
of the period-whitespace split of the body), and an empty body or claim
yields the empty list. -/
theorem extract_relevant_sentences_spec (minLen maxSents : Nat) (text claim : String) :
    (extract_relevant_sentences minLen maxSents text claim).length ≤ maxSents ∧
    (∀ s ∈ extract_relevant_sentences minLen maxSents text claim,
      ∃ kw ∈ pySplitWs (pyLower claim),
        minLen ≤ kw.length ∧ strContains (pyLower s) kw = true) ∧
    List.Sublist (extract_relevant_sentences minLen maxSents text claim) (reSplitDotWs text) ∧
    extract_relevant_sentences minLen maxSents "" claim = [] ∧
    extract_relevant_sentences minLen maxSents text "" = [] := by
  refine ⟨?_, fun s hs => extract_mem_keyword minLen maxSents text claim s hs, ?_,
    by simp [extract_relevant_sentences], by simp [extract_relevant_sentences]⟩
  · unfold extract_relevant_sentences
    split
    · simp
    · rw [List.length_take]
      exact Nat.min_le_left _ _
  · unfold extract_relevant_sentences
    split
    · exact List.nil_sublist _
    · exact List.Sublist.trans (List.take_sublist _ _) (List.filter_sublist _)

/-- C9: the pipeline never emits the empty string as evidence: the extractor
never returns it, and the classifier never places it in the returned
relevant-evidence list (an empty sentence is never classified as supporting
or contradicting). -/
theorem pipeline_no_empty_evidence (minLen maxSents : Nat) (text claim : String)
    (evidence : List String) :
    "" ∉ extract_relevant_sentences minLen maxSents text claim ∧
    "" ∉ (analyze_evidence minLen evidence claim).2 := by
  have hfac : ((pySplitWs (pyLower claim)).filter (fun w => minLen < w.length)).any
      (fun kw => strContains (pyLower "") kw) = false := by
    rw [List.any_eq_false]
    intro kw hkw
    have hne : kw ≠ "" :=
      pySplitWs_mem_ne_empty _ _ (List.mem_of_mem_filter hkw)
    simp [show pyLower "" = "" from rfl, strContains_empty_of_ne kw hne]
  have hsup : supCond minLen claim "" = false := by
    simp [supCond, hfac]
  have hchina : chinaCond claim "" = false := by
    simp only [chinaCond]
    cases hsp : pySplitOnce "in " (pyLower claim) with
    | none => simp [hsp]
    | some p =>
      simp [hsp, show pyLower "" = "" from rfl,
        strContains_empty_of_ne "china" (by decide)]
  have hcon : conCond minLen claim "" = false := by
    simp [conCond, hfac, hchina]
  have h1 : "" ∉ evidence.filter (supCond minLen claim) := by
    simp [List.mem_filter, hsup]
  have h2 : "" ∉ evidence.filter (conCond minLen claim) := by
    simp [List.mem_filter, hcon]
  constructor
  · intro h
    rcases extract_mem_keyword minLen maxSents text claim "" h with ⟨kw, hkw, _, hcontains⟩
    have hne : kw ≠ "" := pySplitWs_mem_ne_empty _ _ hkw
    rw [show pyLower "" = "" from rfl, strContains_empty_of_ne kw hne] at hcontains
    exact Bool.false_ne_true hcontains
  · intro h
    simp only [analyze_evidence, classifyLoop_eq_filters] at h
    split at h
    · rcases List.mem_append.mp h with hh | hh
      · exact h1 hh
      · exact h2 hh
    · split at h
      · exact h1 h
      · split at h
        · exact h2 h
        · simp at h

/-- Witness for C2 at a concrete document and claim: one sentence is kept
and the keyword obligation is discharged for it. -/
theorem extract_relevant_sentences_spec_witness :
    ("Paris is the capital of France" ∈
      extract_relevant_sentences 3 10 "Paris is the capital of France. Nothing here"
        "capital France") ∧
    ∃ kw ∈ pySplitWs (pyLower "capital France"),
      3 ≤ kw.length ∧ strContains (pyLower "Paris is the capital of France") kw = true :=
  ⟨by decide,
    (extract_relevant_sentences_spec 3 10 "Paris is the capital of France. Nothing here"
      "capital France").2.1 "Paris is the capital of France" (by decide)⟩

/-- Witness for C9 at concrete inputs. -/
theorem pipeline_no_empty_evidence_witness :
    "" ∉ extract_relevant_sentences 3 10 "alpha beta. gamma" "alpha" ∧
    "" ∉ (analyze_evidence 3 ["alpha"] "alpha").2 :=
  pipeline_no_empty_evidence 3 10 "alpha beta. gamma" "alpha" ["alpha"]

/-! ### Claim C8 -/

/-- C8: on an empty evidence list, `LLMAnalyzer.analyze` returns exactly
the tuple (INSUFFICIENT_EVIDENCE, "No evidence was provided to evaluate the
claim.", 0, [], []) for every claim and every backend — the backend is
universally quantified, so the result is independent of it (no backend is
invoked). -/
theorem llm_analyze_empty_evidence (backend : List String → String → Except String String)
    (confidenceEnabled : Bool) (claim : String) :
    llm_analyze backend confidenceEnabled [] claim =
      Except.ok ("INSUFFICIENT_EVIDENCE",
        "No evidence was provided to evaluate the claim.", 0, [], []) := rfl

/-! ### Claim C3 -/

/-- C3 (counterexample): when the backend raises on non-empty evidence,
`analyze` does *not* return the empty-evidence tuple shape with empty
relevantEvidence — the fifth component is the full input evidence, not
the empty list. -/
theorem llm_analyze_backend_failure_cex :
    llm_analyze (fun _ _ => Except.error "boom") true ["sentence one"] "claim" =
      Except.ok ("INSUFFICIENT_EVIDENCE", "Analysis unavailable: boom", 0, [],
        ["sentence one"]) ∧
    ("INSUFFICIENT_EVIDENCE", "Analysis unavailable: boom", (0 : Int), ([] : List String),
        ["sentence one"]) ≠
      ("INSUFFICIENT_EVIDENCE", "Analysis unavailable: boom", 0, [], ([] : List String)) :=
  ⟨rfl, by decide⟩

/-- C3 (amended): any exception raised while invoking the backend is caught
inside `analyze` and converted into verdict INSUFFICIENT_EVIDENCE,
confidence 0, empty citations, with an explanation surfacing the failure
reason — and relevantEvidence equal to the *input evidence list* (not
empty); the exception never propagates (the result is `Except.ok`). -/
theorem llm_analyze_backend_failure (backend : List String → String → Except String String)
    (confidenceEnabled : Bool) (evidence : List String) (claim e : String)
    (hne : evidence ≠ []) (herr : backend evidence claim = Except.error e) :
    llm_analyze backend confidenceEnabled evidence claim =
      Except.ok ("INSUFFICIENT_EVIDENCE", "Analysis unavailable: " ++ e, 0, [], evidence) := by
  unfold llm_analyze
  rw [herr]
  simp [List.isEmpty_iff, hne]

/-- Witness for C3's amended theorem at a concrete backend failure. -/
theorem llm_analyze_backend_failure_witness :
    (["s"] : List String) ≠ [] ∧
    llm_analyze (fun _ _ => Except.error "backend down") true ["s"] "c" =
      Except.ok ("INSUFFICIENT_EVIDENCE", "Analysis unavailable: backend down", 0, [], ["s"]) :=
  ⟨by decide,
    llm_analyze_backend_failure (fun _ _ => Except.error "backend down") true ["s"] "c"
      "backend down" (by decide) rfl⟩

/-! ### Claim C4 -/

/-- C4 (counterexample): on a successfully parsed object whose verdict is
outside the four variants, `_parse_llm_response` coerces only the verdict;
the explanation and confidence are still taken from the object, so the
result is not the claimed (INSUFFICIENT_EVIDENCE, "", 0, []). -/
theorem parse_llm_response_invalid_verdict_cex :
    parse_llm_response
        "\x7b\"verdict\": \"MAYBE\", \"explanation\": \"hi\", \"confidence\": 50\x7d" =
      Except.ok ("INSUFFICIENT_EVIDENCE", "hi", 50, []) ∧
    ("INSUFFICIENT_EVIDENCE", "hi", (50 : Int), ([] : List String)) ≠
      ("INSUFFICIENT_EVIDENCE", "", 0, []) :=
  ⟨rfl, by decide⟩

/-- C4 (amended): `_parse_llm_response` parses the span from the first `{`
to the last `}`; when no such span exists or the span fails to parse it
returns the default tuple (INSUFFICIENT_EVIDENCE, "", 0, []); whenever it
returns, the verdict is one of the four variants, the confidence lies in
[0, 100] and at most 5 citations are kept (an out-of-set verdict is coerced
to INSUFFICIENT_EVIDENCE with the other fields still taken from the object,
and a confidence field given as a non-numeric string raises `ValueError`
instead of returning). -/
theorem parse_llm_response_defensive (text : String) :
    (∀ v e c cits, parse_llm_response text = Except.ok (v, e, c, cits) →
      v ∈ VERDICTS ∧ 0 ≤ c ∧ c ≤ 100 ∧ cits.length ≤ 5) ∧
    (braceSpan (pyStrip text).toList = none →
      parse_llm_response text = Except.ok ("INSUFFICIENT_EVIDENCE", "", 0, [])) ∧
    (∀ span, braceSpan (pyStrip text).toList = some span → jsonLoads span = none →
      parse_llm_response text = Except.ok ("INSUFFICIENT_EVIDENCE", "", 0, [])) := by
  refine ⟨?_, ?_, ?_⟩
  · intro v e c cits hok
    unfold parse_llm_response at hok
    split at hok
    · simp only [Except.ok.injEq, Prod.mk.injEq] at hok
      obtain ⟨rfl, rfl, rfl, rfl⟩ := hok
      exact ⟨by decide, by decide, by decide, by decide⟩
    · split at hok
      · simp only [Except.ok.injEq, Prod.mk.injEq] at hok
        obtain ⟨rfl, rfl, rfl, rfl⟩ := hok
        exact ⟨by decide, by decide, by decide, by decide⟩
      · split at hok
        · simp only [Except.ok.injEq, Prod.mk.injEq] at hok
          obtain ⟨rfl, rfl, rfl, rfl⟩ := hok
          refine ⟨?_, by decide, by decide, by decide⟩
          split
          · assumption
          · decide
        · simp at hok
        · simp only [Except.ok.injEq, Prod.mk.injEq] at hok
          obtain ⟨rfl, rfl, rfl, rfl⟩ := hok
          refine ⟨?_, ?_, ?_, ?_⟩
          · split
            · assumption
            · decide
          · split
            · omega
            · split <;> omega
          · split
            · omega
            · split <;> omega
          · split
            · rw [List.length_take]
              exact Nat.min_le_left _ _
            · decide
      · simp at hok
  · intro hspan
    unfold parse_llm_response
    rw [hspan]
  · intro span hspan hjson
    unfold parse_llm_response
    rw [hspan]
    simp only [hjson]

/-- Witness for C4's amended theorem: a well-formed response satisfies the
bounds, a response with no JSON object span yields the default tuple, and a
span that fails to parse yields the default tuple. -/
theorem parse_llm_response_defensive_witness :
    (parse_llm_response "\x7b\"verdict\": \"TRUE\", \"confidence\": 80\x7d" =
       Except.ok ("TRUE", "", 80, []) ∧
     "TRUE" ∈ VERDICTS ∧ (0 : Int) ≤ 80 ∧ (80 : Int) ≤ 100 ∧ ([] : List String).length ≤ 5) ∧
    (braceSpan (pyStrip "no json at all").toList = none ∧
     parse_llm_response "no json at all" = Except.ok ("INSUFFICIENT_EVIDENCE", "", 0, [])) ∧
    (jsonLoads ("\x7b:\x7d".toList) = none ∧
     parse_llm_response "\x7b:\x7d" = Except.ok ("INSUFFICIENT_EVIDENCE", "", 0, [])) := by
  refine ⟨⟨rfl, ?_⟩,
    ⟨rfl, (parse_llm_response_defensive "no json at all").2.1 rfl⟩,
    ⟨rfl, (parse_llm_response_defensive "\x7b:\x7d").2.2 _ rfl rfl⟩⟩
  exact (parse_llm_response_defensive
    "\x7b\"verdict\": \"TRUE\", \"confidence\": 80\x7d").1 "TRUE" "" 80 [] rfl

/-! ### Claim C5 -/

/-- C5: a rate-limit (HTTP 429) or timeout failure of the search is
propagated by both orchestrator entry points as an error; any other request
error, any other HTTP error status in [400, 600) (the range for which
`raise_for_status` raises), or an empty candidate list (under any non-429
status) short-circuits to INSUFFICIENT_EVIDENCE with empty evidence and
sources.  The fetch oracle is universally quantified and the short-circuit
results are constants, so no fetch call is performed in those cases. -/
theorem orchestrator_search_error_policy (fetch : Int → String) (minLen maxSents n : Nat)
    (claim mode : String)
    (analyzer : List String → String →
      Except String (String × String × Int × List String × List String))
    (code : Nat) (results : List SearchItem) :
    (run_fact_check TransportOutcome.timeout fetch minLen maxSents n claim =
      Except.error WikipediaAPIError.timeout) ∧
    (run_fact_check (TransportOutcome.httpStatus 429 results) fetch minLen maxSents n claim =
      Except.error WikipediaAPIError.rateLimit) ∧
    (run_fact_check TransportOutcome.requestError fetch minLen maxSents n claim =
      Except.ok ("INSUFFICIENT_EVIDENCE", [], [])) ∧
    (400 ≤ code → code < 600 → code ≠ 429 →
      run_fact_check (TransportOutcome.httpStatus code results) fetch minLen maxSents n claim =
        Except.ok ("INSUFFICIENT_EVIDENCE", [], [])) ∧
    (code ≠ 429 →
      run_fact_check (TransportOutcome.httpStatus code []) fetch minLen maxSents n claim =
        Except.ok ("INSUFFICIENT_EVIDENCE", [], [])) ∧
    (run_fact_check_with_analyzer TransportOutcome.timeout fetch minLen maxSents n mode
        analyzer claim = Except.error WikipediaAPIError.timeout) ∧
    (run_fact_check_with_analyzer (TransportOutcome.httpStatus 429 results) fetch minLen
        maxSents n mode analyzer claim = Except.error WikipediaAPIError.rateLimit) ∧
    (run_fact_check_with_analyzer TransportOutcome.requestError fetch minLen maxSents n mode
        analyzer claim = Except.ok ⟨"INSUFFICIENT_EVIDENCE", [], [], none, none⟩) ∧
    (400 ≤ code → code < 600 → code ≠ 429 →
      run_fact_check_with_analyzer (TransportOutcome.httpStatus code results) fetch minLen
        maxSents n mode analyzer claim =
          Except.ok ⟨"INSUFFICIENT_EVIDENCE", [], [], none, none⟩) ∧
    (code ≠ 429 →
      run_fact_check_with_analyzer (TransportOutcome.httpStatus code []) fetch minLen maxSents
        n mode analyzer claim = Except.ok ⟨"INSUFFICIENT_EVIDENCE", [], [], none, none⟩) := by
  refine ⟨rfl, rfl, rfl, ?_, ?_, rfl, rfl, rfl, ?_, ?_⟩
  · intro h1 h2 h3
    have h12 : 400 ≤ code ∧ code < 600 := ⟨h1, h2⟩
    simp [run_fact_check, search_wikipedia, h3, h12]
  · intro h3
    simp only [run_fact_check, search_wikipedia, if_neg h3, ite_self]
    rfl
  · intro h1 h2 h3
    have h12 : 400 ≤ code ∧ code < 600 := ⟨h1, h2⟩
    simp [run_fact_check_with_analyzer, search_wikipedia, h3, h12]
  · intro h3
    simp only [run_fact_check_with_analyzer, search_wikipedia, if_neg h3, ite_self]
    rfl

/-- Witness for C5 at a concrete non-429 HTTP error status and a concrete
empty candidate list. -/
theorem orchestrator_search_error_policy_witness :
    (400 ≤ 500 ∧ (500 : Nat) < 600 ∧ (500 : Nat) ≠ 429 ∧ (200 : Nat) ≠ 429) ∧
    run_fact_check (TransportOutcome.httpStatus 500 [⟨some 1, "A"⟩]) (fun _ => "text")
        3 10 5 "some claim" = Except.ok ("INSUFFICIENT_EVIDENCE", [], []) ∧
    run_fact_check (TransportOutcome.httpStatus 200 []) (fun _ => "text")
        3 10 5 "some claim" = Except.ok ("INSUFFICIENT_EVIDENCE", [], []) ∧
    run_fact_check_with_analyzer (TransportOutcome.httpStatus 500 [⟨some 1, "A"⟩])
        (fun _ => "text") 3 10 5 "keyword" (fun _ _ => Except.error "unused") "some claim" =
      Except.ok ⟨"INSUFFICIENT_EVIDENCE", [], [], none, none⟩ ∧
    run_fact_check_with_analyzer (TransportOutcome.httpStatus 200 []) (fun _ => "text")
        3 10 5 "keyword" (fun _ _ => Except.error "unused") "some claim" =
      Except.ok ⟨"INSUFFICIENT_EVIDENCE", [], [], none, none⟩ := by
  have h := orchestrator_search_error_policy (fun _ => "text") 3 10 5 "some claim" "keyword"
    (fun _ _ => Except.error "unused") 500 [⟨some 1, "A"⟩]
  have h200 := orchestrator_search_error_policy (fun _ => "text") 3 10 5 "some claim" "keyword"
    (fun _ _ => Except.error "unused") 200 [⟨some 1, "A"⟩]
  exact ⟨⟨by decide, by decide, by decide, by decide⟩,
    h.2.2.2.1 (by decide) (by decide) (by decide),
    h200.2.2.2.2.1 (by decide),
    h.2.2.2.2.2.2.2.2.1 (by decide) (by decide) (by decide),
    h200.2.2.2.2.2.2.2.2.2 (by decide)⟩

/-! ### Claim C7 -/

/-- C7 (counterexample): when the search results contain two candidates with
the same page id, the orchestrator appends one `Source` entry per fetched
candidate with non-empty content and the same document id then appears twice
in the sources list. -/
theorem run_fact_check_duplicate_sources_cex :
    run_fact_check (TransportOutcome.httpStatus 200 [⟨some 1, "A"⟩, ⟨some 1, "A"⟩])
        (fun _ => "alpha") 3 10 5 "alpha" =
      Except.ok ("TRUE", ["alpha", "alpha"],
        [⟨"A", 1, "https://en.wikipedia.org/?curid=1"⟩,
         ⟨"A", 1, "https://en.wikipedia.org/?curid=1"⟩]) ∧
    ¬ (([⟨"A", 1, "https://en.wikipedia.org/?curid=1"⟩,
         ⟨"A", 1, "https://en.wikipedia.org/?curid=1"⟩] : List Source).map
        Source.pageid).Nodup :=
  ⟨rfl, by decide⟩

theorem fetchLoop_sources_ids (fetch : Int → String) (minLen maxSents : Nat)
    (claim : String) (items : List SearchItem) :
    ((fetchLoop fetch minLen maxSents claim items).2).map Source.pageid =
      (items.filterMap SearchItem.pageid).filter (fun pid => fetch pid ≠ "") := by
  induction items with
  | nil => rfl
  | cons item rest ih =>
    cases hpid : item.pageid with
    | none => simp [fetchLoop, hpid, List.filterMap_cons, ih]
    | some pid =>
      by_cases hc : fetch pid = ""
      · simp [fetchLoop, hpid, List.filterMap_cons, List.filter_cons, hc, ih]
      · simp [fetchLoop, hpid, List.filterMap_cons, List.filter_cons, hc, ih]

/-- C7 (amended): the sources list returned by the orchestrator contains one
entry per fetched candidate with non-empty content (its page ids are exactly
the candidate page ids of the first `n` results whose fetched content is
non-empty, in order, independent of whether any sentence was judged
relevant), and therefore contains no duplicate document id *provided* the
candidate page ids themselves are distinct; duplicate candidates for the
same id do yield duplicate entries. -/
theorem run_fact_check_sources_characterization (results : List SearchItem)
    (fetch : Int → String) (minLen maxSents n : Nat) (claim : String)
    (v : String) (ev : List String) (srcs : List Source)
    (hrun : run_fact_check (TransportOutcome.httpStatus 200 results) fetch minLen maxSents
      n claim = Except.ok (v, ev, srcs)) :
    srcs.map Source.pageid =
      ((results.take n).filterMap SearchItem.pageid).filter (fun pid => fetch pid ≠ "") ∧
    (((results.take n).filterMap SearchItem.pageid).Nodup → (srcs.map Source.pageid).Nodup) := by
  have hrun2 : (if results.isEmpty then
      (Except.ok ("INSUFFICIENT_EVIDENCE", [], []) :
        Except WikipediaAPIError (String × List String × List Source))
    else
      Except.ok
        ((analyze_evidence minLen
            (fetchLoop fetch minLen maxSents claim (results.take n)).1 claim).1,
         (analyze_evidence minLen
            (fetchLoop fetch minLen maxSents claim (results.take n)).1 claim).2,
         (fetchLoop fetch minLen maxSents claim (results.take n)).2)) =
      Except.ok (v, ev, srcs) := hrun
  by_cases hres : results.isEmpty
  · rw [if_pos hres] at hrun2
    simp only [Except.ok.injEq, Prod.mk.injEq] at hrun2
    obtain ⟨-, -, rfl⟩ := hrun2
    have : results = [] := List.isEmpty_iff.mp hres
    subst this
    simp
  · rw [if_neg hres] at hrun2
    simp only [Except.ok.injEq, Prod.mk.injEq] at hrun2
    obtain ⟨-, -, rfl⟩ := hrun2
    constructor
    · exact fetchLoop_sources_ids fetch minLen maxSents claim (results.take n)
    · intro hnd
      rw [fetchLoop_sources_ids fetch minLen maxSents claim (results.take n)]
      exact hnd.filter _

/-- Witness for C7's amended theorem on a concrete run with distinct
candidate ids, one of which fetches empty content. -/
theorem run_fact_check_sources_characterization_witness :
    run_fact_check (TransportOutcome.httpStatus 200 [⟨some 1, "A"⟩, ⟨some 2, "B"⟩])
        (fun pid => if pid = 1 then "alpha" else "") 3 10 5 "alpha" =
      Except.ok ("TRUE", ["alpha"], [⟨"A", 1, "https://en.wikipedia.org/?curid=1"⟩]) ∧
    (([⟨"A", 1, "https://en.wikipedia.org/?curid=1"⟩] : List Source).map Source.pageid).Nodup := by
  refine ⟨rfl, ?_⟩
  have h := run_fact_check_sources_characterization [⟨some 1, "A"⟩, ⟨some 2, "B"⟩]
    (fun pid => if pid = 1 then "alpha" else "") 3 10 5 "alpha"
    "TRUE" ["alpha"] [⟨"A", 1, "https://en.wikipedia.org/?curid=1"⟩] rfl
  exact h.2 (by decide)

/-! ### Claim C10 -/

/-- C10: in keyword (non-"llm") mode, `run_fact_check_with_analyzer` agrees
with `run_fact_check` on verdict, evidence and sources for every transport
outcome, fetch oracle, bound and claim, and carries explanation and
confidence as absent. -/
theorem run_with_analyzer_keyword_refines (transport : TransportOutcome)
    (fetch : Int → String) (minLen maxSents n : Nat) (mode claim : String)
    (analyzer : List String → String →
      Except String (String × String × Int × List String × List String))
    (hmode : pyLower mode ≠ "llm") :
    run_fact_check_with_analyzer transport fetch minLen maxSents n mode analyzer claim =
      (run_fact_check transport fetch minLen maxSents n claim).map
        (fun r => ⟨r.1, r.2.1, r.2.2, none, none⟩) := by
  unfold run_fact_check_with_analyzer run_fact_check
  cases search_wikipedia transport with
  | error e => rfl
  | ok results =>
    by_cases hres : results.isEmpty
    · simp [hres, Except.map]
    · simp [hres, hmode, Except.map]

/-- Witness for C10 in concrete keyword mode. -/
theorem run_with_analyzer_keyword_refines_witness :
    pyLower "keyword" ≠ "llm" ∧
    run_fact_check_with_analyzer (TransportOutcome.httpStatus 200 [⟨some 1, "A"⟩])
        (fun _ => "alpha") 3 10 5 "keyword" (fun _ _ => Except.error "unused") "alpha" =
      (run_fact_check (TransportOutcome.httpStatus 200 [⟨some 1, "A"⟩])
        (fun _ => "alpha") 3 10 5 "alpha").map (fun r => ⟨r.1, r.2.1, r.2.2, none, none⟩) :=
  ⟨by decide,
    run_with_analyzer_keyword_refines (TransportOutcome.httpStatus 200 [⟨some 1, "A"⟩])
      (fun _ => "alpha") 3 10 5 "keyword" "alpha" (fun _ _ => Except.error "unused")
      (by decide)⟩

end FactChecker
